import Mathlib

/-!
Shallow embedding of `websocketpp/transport/asio/security/tls.hpp`:
the TLS socket policy for the asio transport.  The C++ file defines two
classes, `tls_socket::connection` and `tls_socket::endpoint`.  We model
their fields and member functions as pure Lean definitions.

Modelling conventions:
* `lib::error_code` is `Option SocketError`, `none` standing for the
  default-constructed (success) error code.
* boost error codes delivered to asio completion handlers are plain `Nat`
  values: `0` is success (`if (error)` is false exactly on `0`) and
  `operation_aborted` is a fixed non-zero code.
* shared pointers that may be null (`m_context`, `m_socket`, `m_timer`)
  are `Option`; a `none` dereference in an accessor is modelled by the
  accessor returning `none`.
* `std::function` members that may be empty (the two handlers) are
  `Option` of a handler value.  The tls-init handler is a real function
  `Nat → Option Nat` (connection handle to possibly-null context); the
  socket-init handler is invoked only for its side effects on the raw
  socket, so we keep it opaque and record its invocation in a trace.
-/

namespace WebsocketppTls

/-- The members of `socket::error` used by `tls.hpp` (from
`transport/asio/security/base.hpp`, via `socket::make_error`). -/
inductive SocketError where
  | missing_tls_init_handler
  | invalid_tls_context
  | tls_handshake_timeout
  | pass_through
deriving DecidableEq, Repr

/-- `lib::error_code`: `none` is the default-constructed success value. -/
abbrev ErrorCode := Option SocketError

/-- `boost::asio::error::operation_aborted`, a fixed non-zero code. -/
def operation_aborted : Nat := 125

/-- `boost::asio::ssl::stream_base::handshake_type`. -/
inductive HandshakeType where
  | server
  | client
deriving DecidableEq, Repr

/-- The lowest layer of the ssl stream: the wrapped `ip::tcp::socket`,
constructed against the endpoint's io_service. -/
structure RawSocket where
  service : Nat
deriving DecidableEq, Repr

/-- `socket_type = ssl::stream<ip::tcp::socket>`: constructed from an
io_service and a TLS context; owns its lowest-layer tcp socket. -/
structure TlsStream where
  raw : RawSocket
  context : Nat
  shutdownDone : Bool
deriving DecidableEq, Repr

/-- `boost::asio::deadline_timer`, constructed from an io_service and an
initial expiry. -/
structure DeadlineTimer where
  service : Nat
  expiryMs : Nat
deriving DecidableEq, Repr

/-- The tls-init handler: `connection_hdl → context_ptr` (the returned
shared pointer may be null, hence `Option Nat`). -/
abbrev TlsInitFn := Nat → Option Nat

/-- The socket-init handler: invoked with `(connection_hdl, raw socket)`
purely for its side effects; we model it by an opaque identity. -/
abbrev SocketInitFn := Nat

/-- The fields of `tls_socket::connection`.  The three shared pointers
start out null; the handlers start out empty. -/
structure Connection where
  m_io_service : Option Nat
  m_context : Option Nat
  m_socket : Option TlsStream
  m_timer : Option DeadlineTimer
  m_is_server : Bool
  m_hdl : Nat
  m_socket_init_handler : Option SocketInitFn
  m_tls_init_handler : Option TlsInitFn

/-- A freshly constructed connection: all pointers null, handlers empty
(note: `m_is_server` is uninitialized in the C++; we take `false`). -/
def Connection.fresh (hdl : Nat) : Connection :=
  { m_io_service := none
    m_context := none
    m_socket := none
    m_timer := none
    m_is_server := false
    m_hdl := hdl
    m_socket_init_handler := none
    m_tls_init_handler := none }

/-- `connection::get_raw_socket`: `return m_socket->lowest_layer();` —
an unconditional dereference of `m_socket`; a null `m_socket` yields no
value. -/
def Connection.get_raw_socket (c : Connection) : Option RawSocket :=
  c.m_socket.map TlsStream.raw

/-- `connection::get_socket`: `return *m_socket;` — an unconditional
dereference of `m_socket`. -/
def Connection.get_socket (c : Connection) : Option TlsStream :=
  c.m_socket

/-- `connection::set_socket_init_handler`. -/
def Connection.set_socket_init_handler (c : Connection)
    (h : Option SocketInitFn) : Connection :=
  { c with m_socket_init_handler := h }

/-- `connection::set_tls_init_handler`. -/
def Connection.set_tls_init_handler (c : Connection)
    (h : Option TlsInitFn) : Connection :=
  { c with m_tls_init_handler := h }

/-- `connection::set_handle`. -/
def Connection.set_handle (c : Connection) (hdl : Nat) : Connection :=
  { c with m_hdl := hdl }

/-- `connection::get_handshake_type`: server if `m_is_server`, else
client. -/
def Connection.get_handshake_type (c : Connection) : HandshakeType :=
  if c.m_is_server then HandshakeType.server else HandshakeType.client

/-- `connection::init_asio(service, is_server)`: returns the error code
together with the updated connection state.
Faithful order of operations:
1. if the tls-init handler is empty, return `missing_tls_init_handler`
   (nothing else touched);
2. `m_context = m_tls_init_handler(m_hdl)`;
3. if the obtained context is null, return `invalid_tls_context`
   (socket and timer not yet allocated);
4. allocate `m_socket` from `(service, context)`, allocate `m_timer`
   from `(service, 0 seconds)`, record `m_io_service` and
   `m_is_server`, return success. -/
def Connection.init_asio (c : Connection) (service : Nat)
    (is_server : Bool) : ErrorCode × Connection :=
  match c.m_tls_init_handler with
  | none => (some SocketError.missing_tls_init_handler, c)
  | some h =>
    let ctx := h c.m_hdl
    let c1 : Connection := { c with m_context := ctx }
    match ctx with
    | none => (some SocketError.invalid_tls_context, c1)
    | some ctxv =>
      (none,
        { c1 with
          m_socket := some { raw := { service := service },
                             context := ctxv, shutdownDone := false }
          m_timer := some { service := service, expiryMs := 0 }
          m_io_service := some service
          m_is_server := is_server })

/-- The observable steps of `connection::init` (startHandshake), in the
order the C++ body performs them. -/
inductive InitEvent where
  | socketInitCall (hdl : Nat) (raw : Option RawSocket)
  | timerArmed (ms : Nat)
  | handshakeStarted (t : HandshakeType)
deriving DecidableEq, Repr

/-- `connection::init(callback)`: if a socket-init handler is set, call
it with `(m_hdl, get_raw_socket())`; then arm the timer for 5000 ms and
`async_wait` with `handle_timeout`; then `async_handshake` in
`get_handshake_type()` with `handle_init`.  We return the trace of those
steps. -/
def Connection.init (c : Connection) : List InitEvent :=
  (match c.m_socket_init_handler with
   | some _ => [InitEvent.socketInitCall c.m_hdl c.get_raw_socket]
   | none => []) ++
  [InitEvent.timerArmed 5000,
   InitEvent.handshakeStarted c.get_handshake_type]

/-- `connection::handle_timeout(callback, error)`: returns the list of
callback invocations it performs (each entry one `callback(ec)` call).
`if (error)` is true exactly when the boost code is non-zero. -/
def handle_timeout (error : Nat) : List ErrorCode :=
  if error ≠ 0 then
    if error = operation_aborted then []
    else [some SocketError.pass_through]
  else
    [some SocketError.tls_handshake_timeout]

/-- What `connection::handle_init(callback, error)` does: it always
cancels the timer first, then invokes the callback once — with success
if `error` is zero, with `pass_through` otherwise. -/
structure InitHandlerAction where
  cancelsTimer : Bool
  calls : List ErrorCode
deriving DecidableEq, Repr

/-- `connection::handle_init(callback, error)`. -/
def handle_init (error : Nat) : InitHandlerAction :=
  { cancelsTimer := true
    calls := if error ≠ 0 then [some SocketError.pass_through] else [none] }

/-- Which of the two outstanding completions the reactor delivers
first. -/
inductive RaceOrder where
  | handshakeFirst
  | timerFirst
deriving DecidableEq, Repr

/-- The single-threaded handshake/timeout race, with asio cancellation
semantics: both handlers run on one reactor context, in delivery order.
* handshake first: `handle_init(hsErr)` runs; if it cancels the
  still-pending timer, the timer wait completes with
  `operation_aborted` and `handle_timeout` runs on that code (otherwise
  on its own expiry code);
* timer first: `handle_timeout(timerErr)` runs with the timer's own
  completion code; when the handshake later resolves,
  `handle_init(hsErr)` runs (its `cancel()` of the already-completed
  timer is a no-op).
The result is the full sequence of `callback` invocations for the
attempt. -/
def runRace (order : RaceOrder) (hsErr timerErr : Nat) : List ErrorCode :=
  match order with
  | RaceOrder.handshakeFirst =>
    let a := handle_init hsErr
    a.calls ++
      (if a.cancelsTimer then handle_timeout operation_aborted
       else handle_timeout timerErr)
  | RaceOrder.timerFirst =>
    handle_timeout timerErr ++ (handle_init hsErr).calls

/-- `connection::shutdown()`: declares a local error code, performs
`m_socket->shutdown(ec)` and returns nothing — `ec` is discarded.  The
outcome of the close (`closeOutcome`, the code the ssl shutdown would
deposit into `ec`) influences nothing; only the socket's own shutdown
side effect happens. -/
def Connection.shutdown (c : Connection) (closeOutcome : Nat) : Connection :=
  let _ec := closeOutcome
  { c with m_socket := c.m_socket.map (fun s => { s with shutdownDone := true }) }

/-- The fields of `tls_socket::endpoint`: the two handlers, initially
empty. -/
structure Endpoint where
  m_socket_init_handler : Option SocketInitFn
  m_tls_init_handler : Option TlsInitFn

/-- A freshly constructed endpoint. -/
def Endpoint.fresh : Endpoint :=
  { m_socket_init_handler := none, m_tls_init_handler := none }

/-- `endpoint::set_socket_init_handler`. -/
def Endpoint.set_socket_init_handler (e : Endpoint)
    (h : Option SocketInitFn) : Endpoint :=
  { e with m_socket_init_handler := h }

/-- `endpoint::set_tls_init_handler`. -/
def Endpoint.set_tls_init_handler (e : Endpoint)
    (h : Option TlsInitFn) : Endpoint :=
  { e with m_tls_init_handler := h }

/-- `endpoint::init(scon)`: copies the endpoint's two handlers onto the
connection via its setters; returns the updated connection (the C++
returns `void` and never fails). -/
def Endpoint.init (e : Endpoint) (scon : Connection) : Connection :=
  (scon.set_socket_init_handler e.m_socket_init_handler).set_tls_init_handler
    e.m_tls_init_handler

/-! ## Claims -/

/-- C1 (code evaluation at the failing input): when the timer fires
first (it completes with code `0`, the deadline elapsed) and the
handshake later resolves (here successfully, code `0`), the code
invokes the completion callback twice — first with
`tls_handshake_timeout`, then again with success — because
`handle_init` has no consumed-token guard and calls the callback
unconditionally.  This contradicts the claim that the later resolution
performs no further invocation. -/
theorem C1_timer_first_double_invocation :
    runRace RaceOrder.timerFirst 0 0 =
      [some SocketError.tls_handshake_timeout, none] ∧
    (runRace RaceOrder.timerFirst 0 0).length = 2 := by
  constructor <;> rfl

/-- C2: if no tls-init handler is configured, `init_asio` returns
`missing_tls_init_handler` and the connection state is completely
unchanged — in particular no socket, timer, io_service or role field is
touched. -/
theorem C2_missing_handler_no_allocation (c : Connection) (service : Nat)
    (b : Bool) (h : c.m_tls_init_handler = none) :
    c.init_asio service b = (some SocketError.missing_tls_init_handler, c) := by
  unfold Connection.init_asio
  rw [h]

/-- Witness for C2 on a freshly constructed connection. -/
theorem C2_missing_handler_no_allocation_witness :
    (Connection.fresh 0).m_tls_init_handler = none ∧
    (Connection.fresh 0).init_asio 7 true =
      (some SocketError.missing_tls_init_handler, Connection.fresh 0) :=
  ⟨rfl, C2_missing_handler_no_allocation (Connection.fresh 0) 7 true rfl⟩

/-- C3: if the tls-init handler is configured but returns a null
context, `init_asio` returns `invalid_tls_context`, and the socket,
timer and io_service fields are still unallocated (unchanged) — the
failure is detected before either allocation. -/
theorem C3_null_context_before_allocation (c : Connection) (service : Nat)
    (b : Bool) (f : TlsInitFn) (hset : c.m_tls_init_handler = some f)
    (hnull : f c.m_hdl = none) :
    (c.init_asio service b).1 = some SocketError.invalid_tls_context ∧
    (c.init_asio service b).2.m_socket = c.m_socket ∧
    (c.init_asio service b).2.m_timer = c.m_timer ∧
    (c.init_asio service b).2.m_io_service = c.m_io_service := by
  unfold Connection.init_asio
  rw [hset]
  simp [hnull]

/-- Witness for C3: a connection whose tls-init handler always returns
null. -/
theorem C3_null_context_before_allocation_witness :
    ((Connection.fresh 0).set_tls_init_handler
        (some (fun _ => none))).m_tls_init_handler = some (fun _ => none) ∧
    (((Connection.fresh 0).set_tls_init_handler
        (some (fun _ => none))).init_asio 7 true).1 =
      some SocketError.invalid_tls_context :=
  ⟨rfl,
    (C3_null_context_before_allocation
      ((Connection.fresh 0).set_tls_init_handler (some (fun _ => none)))
      7 true (fun _ => none) rfl rfl).1⟩

/-- C4: whenever the handshake resolves before the deadline (with any
outcome `hsErr`), `handle_init` cancels the timer, the timer's
resulting `operation_aborted` completion makes `handle_timeout` a
no-op (no callback call), and `tls_handshake_timeout` never appears
among the callback invocations of the attempt. -/
theorem C4_handshake_first_never_timeout (hsErr timerErr : Nat) :
    (handle_init hsErr).cancelsTimer = true ∧
    handle_timeout operation_aborted = [] ∧
    some SocketError.tls_handshake_timeout ∉
      runRace RaceOrder.handshakeFirst hsErr timerErr := by
  refine ⟨rfl, rfl, ?_⟩
  unfold runRace handle_init handle_timeout
  by_cases h : hsErr = 0 <;> simp [h, operation_aborted]

/-- C5: `endpoint::init` copies the endpoint's current handlers onto
the connection (it is total, hence always succeeds), and the copy is a
snapshot: after mutating the endpoint's handlers to `h2`/`g2`, the
previously initialized connection still holds the endpoint's handlers
from init time, which coincide with the endpoint's new handlers only if
the mutation did not change them. -/
theorem C5_snapshot_semantics (e : Endpoint) (c : Connection)
    (h2 : Option SocketInitFn) (g2 : Option TlsInitFn) :
    (e.init c).m_socket_init_handler = e.m_socket_init_handler ∧
    (e.init c).m_tls_init_handler = e.m_tls_init_handler ∧
    ((e.set_socket_init_handler h2).set_tls_init_handler
        g2).m_socket_init_handler = h2 ∧
    ((e.set_socket_init_handler h2).set_tls_init_handler
        g2).m_tls_init_handler = g2 ∧
    ((e.init c).m_socket_init_handler =
        ((e.set_socket_init_handler h2).set_tls_init_handler
          g2).m_socket_init_handler ↔ e.m_socket_init_handler = h2) ∧
    ((e.init c).m_tls_init_handler =
        ((e.set_socket_init_handler h2).set_tls_init_handler
          g2).m_tls_init_handler ↔ e.m_tls_init_handler = g2) := by
  simp [Endpoint.init, Endpoint.set_socket_init_handler,
    Endpoint.set_tls_init_handler, Connection.set_socket_init_handler,
    Connection.set_tls_init_handler]

/-- C6: with a socket-init handler configured, `connection::init`
invokes it exactly once, synchronously, with the connection handle and
the raw (lowest-layer) socket, strictly before arming the timer and
before starting the asynchronous handshake; with the handler cleared
the call is skipped and the remaining steps are unchanged. -/
theorem C6_socket_init_hook_order (c : Connection) (f : SocketInitFn)
    (hset : c.m_socket_init_handler = some f) :
    c.init = [InitEvent.socketInitCall c.m_hdl c.get_raw_socket,
              InitEvent.timerArmed 5000,
              InitEvent.handshakeStarted c.get_handshake_type] ∧
    (c.set_socket_init_handler none).init =
      [InitEvent.timerArmed 5000,
       InitEvent.handshakeStarted c.get_handshake_type] := by
  constructor
  · unfold Connection.init
    rw [hset]
    rfl
  · simp [Connection.init, Connection.set_socket_init_handler,
      Connection.get_handshake_type]

/-- Witness for C6 on a concrete bound connection with handler id 4. -/
theorem C6_socket_init_hook_order_witness :
    (((Connection.fresh 9).set_socket_init_handler
        (some 4)).m_socket_init_handler = some 4) ∧
    ((Connection.fresh 9).set_socket_init_handler (some 4)).init =
      [InitEvent.socketInitCall 9 none,
       InitEvent.timerArmed 5000,
       InitEvent.handshakeStarted HandshakeType.client] :=
  ⟨rfl,
    (C6_socket_init_hook_order
      ((Connection.fresh 9).set_socket_init_handler (some 4)) 4 rfl).1⟩

/-- C7: whenever `init_asio` succeeds with role flag `b`, the handshake
type of the resulting connection is `server` when `b = true` and
`client` otherwise. -/
theorem C7_handshake_role (c c' : Connection) (service : Nat) (b : Bool)
    (h : c.init_asio service b = (none, c')) :
    c'.get_handshake_type =
      (if b then HandshakeType.server else HandshakeType.client) := by
  unfold Connection.init_asio at h
  cases hh : c.m_tls_init_handler with
  | none => rw [hh] at h; simp at h
  | some f =>
    rw [hh] at h
    cases hctx : f c.m_hdl with
    | none => simp [hctx] at h
    | some ctxv =>
      simp [hctx] at h
      rw [← h]
      simp [Connection.get_handshake_type]

/-- Witness for C7: a connection whose tls-init handler returns context
11, bound as a server. -/
theorem C7_handshake_role_witness :
    (((Connection.fresh 3).set_tls_init_handler
        (some (fun _ => some 11))).init_asio 7 true).2.get_handshake_type =
      HandshakeType.server :=
  C7_handshake_role
    ((Connection.fresh 3).set_tls_init_handler (some (fun _ => some 11)))
    ((((Connection.fresh 3).set_tls_init_handler
        (some (fun _ => some 11))).init_asio 7 true).2)
    7 true rfl

/-- C8: `shutdown` surfaces no error to any caller: the result of
`shutdown` is identical for every possible outcome of the underlying
graceful close — the local error code is discarded. -/
theorem C8_shutdown_discards_error (c : Connection) (o1 o2 : Nat) :
    c.shutdown o1 = c.shutdown o2 := rfl

/-- C9: before `init_asio` has succeeded (the socket pointer is still
null), `get_raw_socket` and `get_socket` dereference the null pointer
without any guard — modelled by the accessors yielding no value — and
no `NotBound`-style error is ever produced (no such member exists in
`SocketError`, and the accessors have no error channel at all). -/
theorem C9_unchecked_accessors (c : Connection) (h : c.m_socket = none) :
    c.get_raw_socket = none ∧ c.get_socket = none := by
  simp [Connection.get_raw_socket, Connection.get_socket, h]

/-- Witness for C9: a freshly constructed (never bound) connection. -/
theorem C9_unchecked_accessors_witness :
    (Connection.fresh 0).m_socket = none ∧
    (Connection.fresh 0).get_raw_socket = none ∧
    (Connection.fresh 0).get_socket = none :=
  ⟨rfl, C9_unchecked_accessors (Connection.fresh 0) rfl⟩

/-- C10: if the timer completes with a non-zero code other than
`operation_aborted` (a reactor/timer failure rather than a
cancellation), `handle_timeout` invokes the completion callback with
`pass_through`. -/
theorem C10_timer_failure_pass_through (e : Nat) (h0 : e ≠ 0)
    (ha : e ≠ operation_aborted) :
    handle_timeout e = [some SocketError.pass_through] := by
  simp [handle_timeout, h0, ha]

/-- Witness for C10 at the concrete failure code 1. -/
theorem C10_timer_failure_pass_through_witness :
    (1 : Nat) ≠ 0 ∧ (1 : Nat) ≠ operation_aborted ∧
    handle_timeout 1 = [some SocketError.pass_through] :=
  ⟨by decide, by decide,
    C10_timer_failure_pass_through 1 (by decide) (by decide)⟩

end WebsocketppTls
